import Mathlib

/-!
Shallow embedding of the turn-based conversation router of
`src/hr_job_creation/main.py` (class `HrJobCreationFlow` over `FlowState`).

External effects are modelled explicitly:
* the LLM classification call (`llm.call(prompt)` in `routing_intent`) is a
  parameter `classify : FlowState → Except Unit RouterIntent`; an `Except.error`
  models the call raising or the structured response failing validation;
* the multi-agent generator (`HrCrew().crew().kickoff(inputs=...)` in
  `handle_job_creation`) is a parameter `generate : GenCall → Except Unit String`;
* the refinement agent (`agent.kickoff(prompt)` in `handle_refinement`) is a
  parameter `refine : RefCall → Except Unit String`;
* `Message.timestamp` (`datetime.now().isoformat()`) is an explicit argument
  threaded into every append;
* the `@persist()` decorator persists the flow state after each completed step,
  so on a failing step the persisted state is the state left by the last step
  that completed; `run_turn` returns that state alongside the outcome;
* the inputs actually passed to the external generator / refinement agent are
  returned as call transcripts (`genCalls`, `refCalls`), so theorems can speak
  about what the external services were invoked with.
-/

/-- Role of a chat message: `Literal["user", "assistant"]` in `Message`. -/
inductive Role where
  | user
  | assistant
deriving DecidableEq, Repr

/-- Message record (`class Message(BaseModel)`), with the timestamp made an
explicit field instead of an ambient clock read. -/
structure Message where
  role : Role
  content : String
  timestamp : String
deriving DecidableEq, Repr

/-- Slot store (`class RoleInfo(BaseModel)`): three optional text fields. -/
structure RoleInfo where
  job_role : Option String := none
  location : Option String := none
  company_name : Option String := none
deriving DecidableEq, Repr

/-- Intent enumeration from `RouterIntent.user_intent`. -/
inductive UserIntent where
  | job_creation
  | conversation
  | refinement
deriving DecidableEq, Repr

/-- Structured classifier output (`class RouterIntent(BaseModel)`).  In the
source `role_info` is `Optional[RoleInfo]` with `default_factory=RoleInfo`;
the explicit-null case (which would crash every downstream field access) is
not modelled, so the field is a plain `RoleInfo` here. -/
structure RouterIntent where
  user_intent : UserIntent
  role_info : RoleInfo := {}
  feedback : Option String := none
  answer_message : Option String := none
  reasoning : String
deriving DecidableEq, Repr

/-- Persistent conversation state (`class FlowState(BaseModel)`), with the
demo default of `user_message` kept from the source. -/
structure FlowState where
  user_message : String :=
    "HI, create a job posting for a data engineer based in NYC for Johnson & Johnson"
  message_history : List Message := []
  role_info : RoleInfo := {}
  job_posting : Option String := none
  feedback : Option String := none
  answer_message : Option String := none
deriving DecidableEq, Repr

/-- Python truthiness of an optional string: `None` and `""` are falsy.  Used
for the `if response.feedback:` / `if response.answer_message:` guards. -/
def truthy : Option String → Bool
  | none => false
  | some s => s != ""

/-- Python truthiness of a plain string, for `if self.state.user_message:`. -/
def truthyStr (s : String) : Bool :=
  s != ""

/-- Method `add_message`: builds a `Message` from role and content and appends
it to `message_history`.  Content here is a plain string, matching the
`content: str` annotation; the one call site that can pass `None`
(`follow_up_conversation`) models the resulting pydantic validation failure
separately. -/
def add_message (s : FlowState) (role : Role) (content : String) (ts : String) : FlowState :=
  { s with message_history := s.message_history ++ [⟨role, content, ts⟩] }

/-- Step `starting_flow`: appends the current user message to the history,
guarded by Python truthiness of `self.state.user_message` (an empty message is
not appended). -/
def starting_flow (s : FlowState) (ts : String) : FlowState :=
  if truthyStr s.user_message then add_message s .user s.user_message ts else s

/-- State update performed by `routing_intent` after the classification call
returns `r` (lines 123–128 of `main.py`):
`self.state.role_info = response.role_info` (an unconditional replacement),
then `feedback` and `answer_message` are overwritten only when the incoming
value is truthy. -/
def routing_update (s : FlowState) (r : RouterIntent) : FlowState :=
  let s1 := { s with role_info := r.role_info }
  let s2 := if truthy r.feedback then { s1 with feedback := r.feedback } else s1
  if truthy r.answer_message then { s2 with answer_message := r.answer_message } else s2

/-- Errors a turn can surface.  The source defines no error taxonomy of its
own; these constructors name the concrete exceptions that can propagate:
the classification call raising or returning an invalid structure, pydantic
rejecting `Message(content=None)`, and the external generation / refinement
calls raising. -/
inductive TurnError where
  | classificationFailure
  | messageValidationFailure
  | generationFailure
  | refinementFailure
deriving DecidableEq, Repr

/-- Inputs dict passed to the generator crew in `handle_job_creation`:
`(job_role, location, company_name)`, each possibly `None`. -/
structure GenCall where
  job_role : Option String
  location : Option String
  company_name : Option String
deriving DecidableEq, Repr

/-- Inputs embedded into the refinement prompt in `handle_refinement`:
the current `job_posting` and `feedback`, each possibly `None`. -/
structure RefCall where
  job_posting : Option String
  feedback : Option String
deriving DecidableEq, Repr

/-- Slot triple read from the state at dispatch time in `handle_job_creation`. -/
def slotsOf (s : FlowState) : GenCall :=
  ⟨s.role_info.job_role, s.role_info.location, s.role_info.company_name⟩

/-- Handler `follow_up_conversation` (`@listen("conversation")`): reads
`self.state.answer_message` and passes it to `add_message`.  When it is `None`,
constructing `Message(role=..., content=None)` fails pydantic validation
(`content: str` is required), which is the `messageValidationFailure` branch;
otherwise the message is appended and the text returned. -/
def follow_up_conversation (s : FlowState) (ts : String) :
    Except TurnError (String × FlowState) :=
  match s.answer_message with
  | none => .error .messageValidationFailure
  | some a => .ok (a, add_message s .assistant a ts)

/-- Handler `handle_job_creation` (`@listen("job_creation")`): invokes the
external crew with the three slot values exactly as stored (no null check, no
empty-content check), then stores `result.raw` as `job_posting`, appends it as
an assistant message and returns it.  The single generator invocation is
returned as a transcript. -/
def handle_job_creation (generate : GenCall → Except Unit String)
    (s : FlowState) (ts : String) :
    Except TurnError (String × FlowState) × List GenCall :=
  let call := slotsOf s
  match generate call with
  | .error _ => (.error .generationFailure, [call])
  | .ok response =>
      let s1 := { s with job_posting := some response }
      (.ok (response, add_message s1 .assistant response ts), [call])

/-- Handler `handle_refinement` (`@listen("refinement")`): embeds the stored
`job_posting` and `feedback` into the rewrite prompt exactly as stored (no
null check), then stores `result.raw` as `job_posting`, appends it as an
assistant message and returns it. -/
def handle_refinement (refine : RefCall → Except Unit String)
    (s : FlowState) (ts : String) :
    Except TurnError (String × FlowState) × List RefCall :=
  let call : RefCall := ⟨s.job_posting, s.feedback⟩
  match refine call with
  | .error _ => (.error .refinementFailure, [call])
  | .ok response =>
      let s1 := { s with job_posting := some response }
      (.ok (response, add_message s1 .assistant response ts), [call])

/-- Result of one full turn: the outcome surfaced to the caller, the state
left persisted by `@persist()` (the state after the last step that completed),
and the transcripts of external generator / refinement invocations. -/
structure TurnResult where
  outcome : Except TurnError String
  persisted : FlowState
  genCalls : List GenCall
  refCalls : List RefCall
deriving Repr

/-- One full turn of `HrJobCreationFlow`:
`starting_flow` → `routing_intent` (classification call, then state update,
then dispatch on the returned intent) → the matching handler.  On a failing
classification call the persisted state is the one `starting_flow` left; on a
failing handler it is the one `routing_intent` left. -/
def run_turn (classify : FlowState → Except Unit RouterIntent)
    (generate : GenCall → Except Unit String)
    (refine : RefCall → Except Unit String)
    (tsUser tsAsst : String) (s : FlowState) : TurnResult :=
  let s1 := starting_flow s tsUser
  match classify s1 with
  | .error _ => ⟨.error .classificationFailure, s1, [], []⟩
  | .ok r =>
      let s2 := routing_update s1 r
      match r.user_intent with
      | .conversation =>
          match follow_up_conversation s2 tsAsst with
          | .error e => ⟨.error e, s2, [], []⟩
          | .ok (a, s3) => ⟨.ok a, s3, [], []⟩
      | .job_creation =>
          match handle_job_creation generate s2 tsAsst with
          | (.error e, calls) => ⟨.error e, s2, calls, []⟩
          | (.ok (a, s3), calls) => ⟨.ok a, s3, calls, []⟩
      | .refinement =>
          match handle_refinement refine s2 tsAsst with
          | (.error e, calls) => ⟨.error e, s2, [], calls⟩
          | (.ok (a, s3), calls) => ⟨.ok a, s3, [], calls⟩

/-! Concrete fixtures used to evaluate the embedded code on specific turns. -/

/-- Stored state of a session that already produced a posting: all three slots
collected, a posting, a feedback text and an answer text present. -/
def sFull : FlowState :=
  { user_message := "actually make one for Product Manager at Google"
    message_history := []
    role_info :=
      { job_role := some "Data Engineer", location := some "NYC", company_name := some "J&J" }
    job_posting := some "OLD POSTING"
    feedback := some "old feedback"
    answer_message := some "old answer" }

/-- Stored state mid-collection: only the location slot is known. -/
def sMissingRole : FlowState :=
  { user_message := "go ahead"
    message_history := []
    role_info := { job_role := none, location := some "NYC", company_name := none } }

/-- Stored state with all three slots collected and no posting yet. -/
def sReady : FlowState :=
  { user_message := "generate it"
    message_history := []
    role_info :=
      { job_role := some "Data Engineer", location := some "NYC", company_name := some "J&J" } }

/-- Stored state of a brand-new session: first contact, nothing collected. -/
def sHi : FlowState :=
  { user_message := "Hi", message_history := [] }

/-- Classifier output requesting a brand-new posting for a different role and
company, with all three slots populated. -/
def rPM : RouterIntent :=
  { user_intent := .job_creation
    role_info :=
      { job_role := some "Product Manager", location := some "Mountain View"
        company_name := some "Google" }
    reasoning := "user asked for a new posting for a different role and company" }

/-- Classifier output claiming `job_creation` while the job_role slot is still
null. -/
def rIncomplete : RouterIntent :=
  { user_intent := .job_creation
    role_info := { job_role := none, location := some "NYC", company_name := some "Acme" }
    reasoning := "claims job creation although a slot is missing" }

/-- Classifier output with all three slots populated, ready to generate. -/
def rGo : RouterIntent :=
  { user_intent := .job_creation
    role_info :=
      { job_role := some "Data Engineer", location := some "NYC", company_name := some "J&J" }
    reasoning := "all slots collected and no posting exists" }

/-- Classifier output for a refinement turn that carries no feedback text. -/
def rRefine : RouterIntent :=
  { user_intent := .refinement
    reasoning := "user appears to ask for changes" }

/-- Classifier output for a conversation turn with an answer text and a null
job_role echoed back for every slot. -/
def rNullSlots : RouterIntent :=
  { user_intent := .conversation
    answer_message := some "What role should the posting be for?"
    reasoning := "slots missing, keep talking" }

/-- Classifier output for a conversation turn that extracted one slot. -/
def rChat : RouterIntent :=
  { user_intent := .conversation
    role_info := { job_role := some "Data Engineer" }
    answer_message := some "Got it - which company and location is this for?"
    reasoning := "two slots still missing" }

/-- Classifier output claiming a conversation intent while carrying no answer
text, which makes the conversation handler fail on message validation when the
stored answer text is also null. -/
def rSilent : RouterIntent :=
  { user_intent := .conversation
    reasoning := "conversation claimed without an answer text" }

/-- External generator stub that always fails, modelling a raising crew call. -/
def genFail : GenCall → Except Unit String := fun _ => .error ()

/-- External generator stub that always succeeds with a fixed posting text. -/
def genOk : GenCall → Except Unit String := fun _ => .ok "NEW POSTING"

/-- External generator stub that returns empty content, modelling a crew run
whose `result.raw` is the empty string. -/
def genEmpty : GenCall → Except Unit String := fun _ => .ok ""

/-- External generator stub that echoes its job_role input, making the inputs
of the call observable in the outcome. -/
def genEcho : GenCall → Except Unit String :=
  fun c => .ok (c.job_role.getD "ROLE WAS NULL")

/-- External refinement stub that always fails. -/
def refFail : RefCall → Except Unit String := fun _ => .error ()

/-- External refinement stub that echoes its inputs, making null inputs of the
rewrite call observable in the outcome. -/
def refEcho : RefCall → Except Unit String :=
  fun c =>
    .ok ((c.job_posting.getD "POSTING WAS NULL") ++ "/" ++ (c.feedback.getD "FEEDBACK WAS NULL"))

/-! Helper lemmas shared by the turn-level theorems. -/

lemma starting_flow_feedback (s : FlowState) (ts : String) :
    (starting_flow s ts).feedback = s.feedback := by
  unfold starting_flow add_message
  split <;> rfl

lemma starting_flow_answer (s : FlowState) (ts : String) :
    (starting_flow s ts).answer_message = s.answer_message := by
  unfold starting_flow add_message
  split <;> rfl

lemma routing_update_feedback_of_not_truthy (s : FlowState) (r : RouterIntent)
    (hf : truthy r.feedback = false) :
    (routing_update s r).feedback = s.feedback := by
  simp only [routing_update, hf, Bool.false_eq_true, if_false]
  split <;> rfl

lemma routing_update_answer_of_not_truthy (s : FlowState) (r : RouterIntent)
    (ha : truthy r.answer_message = false) :
    (routing_update s r).answer_message = s.answer_message := by
  simp only [routing_update, ha, Bool.false_eq_true, if_false]
  split <;> rfl

/-- Claim C2 (amended): whenever a dispatched pipeline fails — the generation
call, the refinement call, or the conversation handler on message validation —
the persisted state is not rolled back to the pre-turn state; it equals the
state left by the starting and routing steps, so the appended user message,
the role_info replacement and any feedback or answer updates made during
routing survive the failure; only the failing handler never got to mutate. -/
theorem pipeline_failure_persists_routing_mutations
    (classify : FlowState → Except Unit RouterIntent)
    (generate : GenCall → Except Unit String)
    (refine : RefCall → Except Unit String)
    (tsU tsA : String) (s : FlowState) (r : RouterIntent) (e : TurnError)
    (hc : classify (starting_flow s tsU) = .ok r)
    (he : (run_turn classify generate refine tsU tsA s).outcome = .error e) :
    (run_turn classify generate refine tsU tsA s).persisted
      = routing_update (starting_flow s tsU) r := by
  cases hi : r.user_intent
  case conversation =>
    simp only [run_turn, follow_up_conversation, hc, hi] at he ⊢
    cases hans : (routing_update (starting_flow s tsU) r).answer_message <;>
      simp only [hans] at he ⊢
    exact absurd he (by simp)
  case job_creation =>
    simp only [run_turn, handle_job_creation, hc, hi] at he ⊢
    cases hg : generate (slotsOf (routing_update (starting_flow s tsU) r)) <;>
      simp only [hg] at he ⊢
    exact absurd he (by simp)
  case refinement =>
    simp only [run_turn, handle_refinement, hc, hi] at he ⊢
    cases hg : refine ⟨(routing_update (starting_flow s tsU) r).job_posting,
        (routing_update (starting_flow s tsU) r).feedback⟩ <;>
      simp only [hg] at he ⊢
    exact absurd he (by simp)

/-- Claim C3 (amended): on a `job_creation` intent the router dispatches the
generator unconditionally, invoking it exactly once with the role_info fields
exactly as stored after the routing update, null or not; no slot-completeness
check exists and no SlotContractViolation can be raised. -/
theorem job_creation_dispatch_unconditional
    (classify : FlowState → Except Unit RouterIntent)
    (generate : GenCall → Except Unit String)
    (refine : RefCall → Except Unit String)
    (tsU tsA : String) (s : FlowState) (r : RouterIntent)
    (hc : classify (starting_flow s tsU) = .ok r)
    (hi : r.user_intent = .job_creation) :
    (run_turn classify generate refine tsU tsA s).genCalls
      = [slotsOf (routing_update (starting_flow s tsU) r)] := by
  simp only [run_turn, handle_job_creation, hc, hi]
  cases hg : generate (slotsOf (routing_update (starting_flow s tsU) r)) <;>
    simp only [hg]

lemma add_message_feedback (s : FlowState) (role : Role) (content ts : String) :
    (add_message s role content ts).feedback = s.feedback := rfl

lemma add_message_answer (s : FlowState) (role : Role) (content ts : String) :
    (add_message s role content ts).answer_message = s.answer_message := rfl

/-- Claim C4 (amended): even when a posting already exists and the newly
classified role_info differs materially from the stored one, the router
performs no destructive reset: role_info is unconditionally replaced by the
classifier output (as on every turn), while `job_posting` is left untouched
before dispatch and `feedback` / `answer_message` keep their old values
whenever the classifier carries no truthy replacement. -/
theorem routing_keeps_posting_on_new_job (s : FlowState) (r : RouterIntent)
    (_hpost : s.job_posting.isSome = true)
    (_hdiff : r.role_info.job_role ≠ s.role_info.job_role) :
    (routing_update s r).role_info = r.role_info ∧
    (routing_update s r).job_posting = s.job_posting ∧
    (truthy r.feedback = false → (routing_update s r).feedback = s.feedback) ∧
    (truthy r.answer_message = false → (routing_update s r).answer_message = s.answer_message) := by
  refine ⟨?_, ?_, fun hf => routing_update_feedback_of_not_truthy s r hf,
    fun ha => routing_update_answer_of_not_truthy s r ha⟩
  · simp only [routing_update]
    split <;> split <;> rfl
  · simp only [routing_update]
    split <;> split <;> rfl

/-- Claim C5 (amended): on a `refinement` intent the rewrite call is
dispatched unconditionally with the stored `job_posting` and `feedback`
exactly as they are, even when either is null; no precondition is checked and
no contract-violation error exists. -/
theorem refinement_dispatch_unconditional
    (classify : FlowState → Except Unit RouterIntent)
    (generate : GenCall → Except Unit String)
    (refine : RefCall → Except Unit String)
    (tsU tsA : String) (s : FlowState) (r : RouterIntent)
    (hc : classify (starting_flow s tsU) = .ok r)
    (hi : r.user_intent = .refinement) :
    (run_turn classify generate refine tsU tsA s).refCalls
      = [⟨(routing_update (starting_flow s tsU) r).job_posting,
          (routing_update (starting_flow s tsU) r).feedback⟩] := by
  simp only [run_turn, handle_refinement, hc, hi]
  cases hg : refine ⟨(routing_update (starting_flow s tsU) r).job_posting,
      (routing_update (starting_flow s tsU) r).feedback⟩ <;>
    simp only [hg]

/-- Claim C6 (amended): a job-creation turn whose external generator returns
empty content treats it as any other success: the turn returns the empty
string, stores it as `job_posting` and appends it to the message history as an
assistant message; no GenerationError is raised for empty content. -/
theorem empty_generation_committed
    (classify : FlowState → Except Unit RouterIntent)
    (generate : GenCall → Except Unit String)
    (refine : RefCall → Except Unit String)
    (tsU tsA : String) (s : FlowState) (r : RouterIntent)
    (hc : classify (starting_flow s tsU) = .ok r)
    (hi : r.user_intent = .job_creation)
    (hg : generate (slotsOf (routing_update (starting_flow s tsU) r)) = .ok "") :
    (run_turn classify generate refine tsU tsA s).outcome = .ok "" ∧
    (run_turn classify generate refine tsU tsA s).persisted.job_posting = some "" ∧
    (run_turn classify generate refine tsU tsA s).persisted.message_history
      = (routing_update (starting_flow s tsU) r).message_history
          ++ [⟨.assistant, "", tsA⟩] := by
  simp [run_turn, handle_job_creation, hc, hi, hg, add_message]

/-- Claim C7 (amended): `feedback` and `answer_message` are never cleared by
a turn; whenever the classification result carries no truthy `feedback` or
`answer_message`, the persisted values after the turn equal the pre-turn
values regardless of the resolved intent, so stale values survive. -/
theorem feedback_answer_never_cleared
    (classify : FlowState → Except Unit RouterIntent)
    (generate : GenCall → Except Unit String)
    (refine : RefCall → Except Unit String)
    (tsU tsA : String) (s : FlowState) (r : RouterIntent)
    (hc : classify (starting_flow s tsU) = .ok r)
    (hf : truthy r.feedback = false)
    (ha : truthy r.answer_message = false) :
    (run_turn classify generate refine tsU tsA s).persisted.feedback = s.feedback ∧
    (run_turn classify generate refine tsU tsA s).persisted.answer_message
      = s.answer_message := by
  have h2f : (routing_update (starting_flow s tsU) r).feedback = s.feedback := by
    rw [routing_update_feedback_of_not_truthy _ _ hf, starting_flow_feedback]
  have h2a : (routing_update (starting_flow s tsU) r).answer_message = s.answer_message := by
    rw [routing_update_answer_of_not_truthy _ _ ha, starting_flow_answer]
  simp only [run_turn, hc]
  cases hi : r.user_intent
  case job_creation =>
    simp only [handle_job_creation]
    cases hg : generate (slotsOf (routing_update (starting_flow s tsU) r)) <;>
      simp only [hg, add_message_feedback, add_message_answer] <;>
      exact ⟨h2f, h2a⟩
  case conversation =>
    simp only [follow_up_conversation]
    cases hans : (routing_update (starting_flow s tsU) r).answer_message <;>
      simp only [hans, add_message_feedback, add_message_answer] <;>
      exact ⟨h2f, by rw [← hans]; exact h2a⟩
  case refinement =>
    simp only [handle_refinement]
    cases hg : refine ⟨(routing_update (starting_flow s tsU) r).job_posting,
        (routing_update (starting_flow s tsU) r).feedback⟩ <;>
      simp only [hg, add_message_feedback, add_message_answer] <;>
      exact ⟨h2f, h2a⟩

/-- Claim C8: on a `job_creation` intent with all three slots non-null in the
stored state at dispatch time, the external generator is invoked exactly once
with exactly those three values, and on success the returned text is stored as
`job_posting`, appended to the message history as an assistant message with
that text, and returned as the turn outcome. -/
theorem job_creation_uses_stored_slots_and_commits
    (classify : FlowState → Except Unit RouterIntent)
    (generate : GenCall → Except Unit String)
    (refine : RefCall → Except Unit String)
    (tsU tsA : String) (s : FlowState) (r : RouterIntent)
    (jr loc cn text : String)
    (hc : classify (starting_flow s tsU) = .ok r)
    (hi : r.user_intent = .job_creation)
    (hslots : (routing_update (starting_flow s tsU) r).role_info
      = ⟨some jr, some loc, some cn⟩)
    (hg : generate ⟨some jr, some loc, some cn⟩ = .ok text) :
    (run_turn classify generate refine tsU tsA s).genCalls = [⟨some jr, some loc, some cn⟩] ∧
    (run_turn classify generate refine tsU tsA s).outcome = .ok text ∧
    (run_turn classify generate refine tsU tsA s).persisted.job_posting = some text ∧
    (run_turn classify generate refine tsU tsA s).persisted.message_history
      = (routing_update (starting_flow s tsU) r).message_history
          ++ [⟨.assistant, text, tsA⟩] := by
  have hs : slotsOf (routing_update (starting_flow s tsU) r) = ⟨some jr, some loc, some cn⟩ := by
    simp [slotsOf, hslots]
  simp [run_turn, handle_job_creation, hc, hi, hs, hg, add_message]

/-- Claim C9: the starting step appends nothing to the message history when
the stored user message is the empty string (the state is unchanged), and for
a non-empty user message it appends exactly one message with role `user` and
content equal to the user message. -/
theorem starting_flow_append_iff_nonempty (s : FlowState) (ts : String) :
    (s.user_message = "" → starting_flow s ts = s) ∧
    (s.user_message ≠ "" →
      (starting_flow s ts).message_history
        = s.message_history ++ [⟨.user, s.user_message, ts⟩]) := by
  constructor
  · intro h
    simp [starting_flow, truthyStr, h]
  · intro h
    simp [starting_flow, truthyStr, h, add_message]

/-- Claim C10: on a `conversation` intent the turn succeeds exactly when the
stored `answer_message` is non-null at dispatch time; when it is `some a` the
turn returns `a` and persists the state with `a` appended as an assistant
message, and when it is null the turn fails with the message-validation
error (pydantic rejects `Message(content=None)`). -/
theorem conversation_returns_stored_answer
    (classify : FlowState → Except Unit RouterIntent)
    (generate : GenCall → Except Unit String)
    (refine : RefCall → Except Unit String)
    (tsU tsA : String) (s : FlowState) (r : RouterIntent)
    (hc : classify (starting_flow s tsU) = .ok r)
    (hi : r.user_intent = .conversation) :
    ((∃ a, (run_turn classify generate refine tsU tsA s).outcome = .ok a)
        ↔ (routing_update (starting_flow s tsU) r).answer_message.isSome = true) ∧
    (∀ a, (routing_update (starting_flow s tsU) r).answer_message = some a →
        (run_turn classify generate refine tsU tsA s).outcome = .ok a ∧
        (run_turn classify generate refine tsU tsA s).persisted
          = add_message (routing_update (starting_flow s tsU) r) .assistant a tsA) ∧
    ((routing_update (starting_flow s tsU) r).answer_message = none →
        (run_turn classify generate refine tsU tsA s).outcome
          = .error .messageValidationFailure) := by
  simp only [run_turn, follow_up_conversation, hc, hi]
  cases hans : (routing_update (starting_flow s tsU) r).answer_message <;>
    simp [hans]

/-- Claim C1 (code bug evaluation): the stored `job_role` is non-null, the
classification result carries null for it and no new-job reset is involved,
yet the routing update leaves `job_role` null: `routing_intent` executes an
unconditional `self.state.role_info = response.role_info` instead of the
non-destructive merge that its own inline comment promises. -/
theorem role_info_overwritten_with_null :
    sFull.role_info.job_role = some "Data Engineer" ∧
    rNullSlots.role_info.job_role = none ∧
    (routing_update sFull rNullSlots).role_info.job_role = none :=
  ⟨rfl, rfl, rfl⟩

/-- Claim C2 (counterexample): a concrete turn that fails with a generation
error and whose persisted state differs from the pre-turn state. -/
theorem failed_turn_not_rolled_back :
    (run_turn (fun _ => .ok rPM) genFail refFail "t1" "t2" sFull).outcome
      = .error .generationFailure ∧
    (run_turn (fun _ => .ok rPM) genFail refFail "t1" "t2" sFull).persisted ≠ sFull :=
  ⟨rfl, by decide⟩

/-- Claim C2 (witness): the amended rollback theorem applied to one concrete
failing turn of each pipeline — a failing generation call, a failing
refinement call, and a conversation handler failing message validation. -/
theorem pipeline_failure_persists_routing_mutations_witness :
    ((run_turn (fun _ => .ok rPM) genFail refFail "t1" "t2" sFull).persisted
      = routing_update (starting_flow sFull "t1") rPM) ∧
    ((run_turn (fun _ => .ok rRefine) genOk refFail "t1" "t2" sFull).persisted
      = routing_update (starting_flow sFull "t1") rRefine) ∧
    ((run_turn (fun _ => .ok rSilent) genOk refFail "t1" "t2" sReady).persisted
      = routing_update (starting_flow sReady "t1") rSilent) :=
  ⟨pipeline_failure_persists_routing_mutations
      (fun _ => .ok rPM) genFail refFail "t1" "t2" sFull rPM .generationFailure rfl rfl,
    pipeline_failure_persists_routing_mutations
      (fun _ => .ok rRefine) genOk refFail "t1" "t2" sFull rRefine .refinementFailure rfl rfl,
    pipeline_failure_persists_routing_mutations
      (fun _ => .ok rSilent) genOk refFail "t1" "t2" sReady rSilent
      .messageValidationFailure rfl rfl⟩

/-- Claim C3 (counterexample): a concrete `job_creation` turn whose stored
`job_role` is null after the routing update, yet the generator is invoked with
that null slot and the turn succeeds instead of failing. -/
theorem null_slot_dispatch_succeeds :
    (run_turn (fun _ => .ok rIncomplete) genEcho refFail "t1" "t2" sMissingRole).genCalls
      = [⟨none, some "NYC", some "Acme"⟩] ∧
    (run_turn (fun _ => .ok rIncomplete) genEcho refFail "t1" "t2" sMissingRole).outcome
      = .ok "ROLE WAS NULL" :=
  ⟨rfl, rfl⟩

/-- Claim C3 (witness): the unconditional-dispatch theorem applied to the
concrete turn with a null slot. -/
theorem job_creation_dispatch_unconditional_witness :
    (run_turn (fun _ => .ok rIncomplete) genEcho refFail "t1" "t2" sMissingRole).genCalls
      = [slotsOf (routing_update (starting_flow sMissingRole "t1") rIncomplete)] :=
  job_creation_dispatch_unconditional
    (fun _ => .ok rIncomplete) genEcho refFail "t1" "t2" sMissingRole rIncomplete rfl rfl

/-- Claim C4 (counterexample): a concrete new-job turn (posting exists,
materially different role and company classified) in which `job_posting`,
`feedback` and `answer_message` are all still non-null at dispatch time, as
observed through the state persisted when the generator fails. -/
theorem no_reset_before_dispatch :
    (run_turn (fun _ => .ok rPM) genFail refFail "t1" "t2" sFull).outcome
      = .error .generationFailure ∧
    (run_turn (fun _ => .ok rPM) genFail refFail "t1" "t2" sFull).persisted.job_posting
      = some "OLD POSTING" ∧
    (run_turn (fun _ => .ok rPM) genFail refFail "t1" "t2" sFull).persisted.feedback
      = some "old feedback" ∧
    (run_turn (fun _ => .ok rPM) genFail refFail "t1" "t2" sFull).persisted.answer_message
      = some "old answer" :=
  ⟨rfl, rfl, rfl, rfl⟩

/-- Claim C4 (witness): the no-reset theorem applied to the concrete
new-job turn. -/
theorem routing_keeps_posting_on_new_job_witness :
    (routing_update sFull rPM).role_info = rPM.role_info ∧
    (routing_update sFull rPM).job_posting = sFull.job_posting ∧
    (truthy rPM.feedback = false → (routing_update sFull rPM).feedback = sFull.feedback) ∧
    (truthy rPM.answer_message = false →
      (routing_update sFull rPM).answer_message = sFull.answer_message) :=
  routing_keeps_posting_on_new_job sFull rPM rfl (by decide)

/-- Claim C5 (counterexample): a concrete `refinement` turn with null
`job_posting` and null `feedback` that dispatches the rewrite call with both
nulls and succeeds instead of failing. -/
theorem refinement_dispatch_with_nulls_succeeds :
    (run_turn (fun _ => .ok rRefine) genFail refEcho "t1" "t2" sHi).refCalls
      = [⟨none, none⟩] ∧
    (run_turn (fun _ => .ok rRefine) genFail refEcho "t1" "t2" sHi).outcome
      = .ok "POSTING WAS NULL/FEEDBACK WAS NULL" :=
  ⟨rfl, rfl⟩

/-- Claim C5 (witness): the unconditional-refinement-dispatch theorem
applied to the concrete turn with null posting and feedback. -/
theorem refinement_dispatch_unconditional_witness :
    (run_turn (fun _ => .ok rRefine) genFail refEcho "t1" "t2" sHi).refCalls
      = [⟨(routing_update (starting_flow sHi "t1") rRefine).job_posting,
          (routing_update (starting_flow sHi "t1") rRefine).feedback⟩] :=
  refinement_dispatch_unconditional
    (fun _ => .ok rRefine) genFail refEcho "t1" "t2" sHi rRefine rfl rfl

/-- Claim C6 (counterexample): a concrete turn whose generator returns empty
content, which is returned, stored as `job_posting` and appended to the
history instead of raising a GenerationError. -/
theorem empty_generation_accepted :
    (run_turn (fun _ => .ok rGo) genEmpty refFail "t1" "t2" sReady).outcome = .ok "" ∧
    (run_turn (fun _ => .ok rGo) genEmpty refFail "t1" "t2" sReady).persisted.job_posting
      = some "" ∧
    (run_turn (fun _ => .ok rGo) genEmpty refFail "t1" "t2" sReady).persisted.message_history
      = [⟨.user, "generate it", "t1"⟩, ⟨.assistant, "", "t2"⟩] :=
  ⟨rfl, rfl, rfl⟩

/-- Claim C6 (witness): the empty-content theorem applied to the concrete
turn with an empty generator result. -/
theorem empty_generation_committed_witness :
    (run_turn (fun _ => .ok rGo) genEmpty refFail "t1" "t2" sReady).outcome = .ok "" ∧
    (run_turn (fun _ => .ok rGo) genEmpty refFail "t1" "t2" sReady).persisted.job_posting
      = some "" ∧
    (run_turn (fun _ => .ok rGo) genEmpty refFail "t1" "t2" sReady).persisted.message_history
      = (routing_update (starting_flow sReady "t1") rGo).message_history
          ++ [⟨.assistant, "", "t2"⟩] :=
  empty_generation_committed (fun _ => .ok rGo) genEmpty refFail "t1" "t2" sReady rGo rfl rfl rfl

/-- Claim C7 (counterexample): a concrete successful `job_creation` turn
after which the persisted `feedback` and `answer_message` still hold stale
values although the resolved intent was neither refinement nor
conversation. -/
theorem stale_feedback_and_answer_survive :
    (run_turn (fun _ => .ok rPM) genOk refFail "t1" "t2" sFull).outcome = .ok "NEW POSTING" ∧
    (run_turn (fun _ => .ok rPM) genOk refFail "t1" "t2" sFull).persisted.feedback
      = some "old feedback" ∧
    (run_turn (fun _ => .ok rPM) genOk refFail "t1" "t2" sFull).persisted.answer_message
      = some "old answer" :=
  ⟨rfl, rfl, rfl⟩

/-- Claim C7 (witness): the never-cleared theorem applied to the concrete
stale-value turn. -/
theorem feedback_answer_never_cleared_witness :
    (run_turn (fun _ => .ok rPM) genOk refFail "t1" "t2" sFull).persisted.feedback
      = sFull.feedback ∧
    (run_turn (fun _ => .ok rPM) genOk refFail "t1" "t2" sFull).persisted.answer_message
      = sFull.answer_message :=
  feedback_answer_never_cleared (fun _ => .ok rPM) genOk refFail "t1" "t2" sFull rPM rfl rfl rfl

/-- Claim C8 (witness): the slots-and-commit theorem applied to a concrete
ready state and a successful generator. -/
theorem job_creation_uses_stored_slots_and_commits_witness :
    (run_turn (fun _ => .ok rGo) genOk refFail "t1" "t2" sReady).genCalls
      = [⟨some "Data Engineer", some "NYC", some "J&J"⟩] ∧
    (run_turn (fun _ => .ok rGo) genOk refFail "t1" "t2" sReady).outcome = .ok "NEW POSTING" ∧
    (run_turn (fun _ => .ok rGo) genOk refFail "t1" "t2" sReady).persisted.job_posting
      = some "NEW POSTING" ∧
    (run_turn (fun _ => .ok rGo) genOk refFail "t1" "t2" sReady).persisted.message_history
      = (routing_update (starting_flow sReady "t1") rGo).message_history
          ++ [⟨.assistant, "NEW POSTING", "t2"⟩] :=
  job_creation_uses_stored_slots_and_commits (fun _ => .ok rGo) genOk refFail "t1" "t2"
    sReady rGo "Data Engineer" "NYC" "J&J" "NEW POSTING" rfl rfl rfl rfl

/-- Claim C9 (witness): the append theorem applied to a concrete state with
a non-empty user message. -/
theorem starting_flow_append_iff_nonempty_witness :
    (starting_flow sReady "t1").message_history
      = sReady.message_history ++ [⟨.user, sReady.user_message, "t1"⟩] :=
  (starting_flow_append_iff_nonempty sReady "t1").2 (by decide)

/-- Claim C10 (witness): the conversation theorem applied to a concrete
first-contact turn whose classification carries an answer text. -/
theorem conversation_returns_stored_answer_witness :
    (run_turn (fun _ => .ok rChat) genFail refFail "t1" "t2" sHi).outcome
      = .ok "Got it - which company and location is this for?" ∧
    (run_turn (fun _ => .ok rChat) genFail refFail "t1" "t2" sHi).persisted
      = add_message (routing_update (starting_flow sHi "t1") rChat) .assistant
          "Got it - which company and location is this for?" "t2" :=
  (conversation_returns_stored_answer (fun _ => .ok rChat) genFail refFail "t1" "t2"
    sHi rChat rfl rfl).2.1 "Got it - which company and location is this for?" rfl
